import Mathlib

/-!
Shallow embedding of the command dispatch pipeline of command.ts
(src/defaultModules/CommandHandler.ts and
src/builtinModules/BuiltinCommandConverters.ts).

Modelling conventions:
  - JavaScript runtime values that flow through converters and handlers are
    modelled by the inductive JSValue; JS objects (messages, interactions,
    contexts) are opaque tagged objects.
  - Async is modelled away: every awaited call is its returned value.
  - A JS function that may throw is modelled as returning Except JSValue.
  - String helpers (split, slice, startsWith, toLowerCase, join) are
    re-implemented structurally so that concrete instances reduce in the
    kernel; they model the JS semantics used by the source (single-space
    split keeping empty pieces, character-indexed slice) for the ASCII
    inputs the development uses.
  - The permission query surfaces (guild?.me?.permissionsIn(ch).has(p) and
    member?.permissionsIn(ch).has(p)) are opaque collaborators, modelled as
    boolean-valued functions of the required permission set; an absent
    guild or member is a surface that returns false, since the optional
    chain then yields undefined and the negated test passes.
-/

namespace CommandTS

/-- JavaScript values as they appear in the dispatch pipeline. -/
inductive JSValue where
  | undef
  | jsNull
  | bool (b : Bool)
  | num (n : Int)
  | nan
  | str (s : String)
  | obj (tag : Nat)
  | context (msgTag : Nat) (prefixStr : String)
  deriving Repr, DecidableEq

/-- JS truthiness test, negated: falsy v is true exactly when !v holds in JS. -/
def falsy : JSValue → Bool
  | JSValue.undef => true
  | JSValue.jsNull => true
  | JSValue.bool b => !b
  | JSValue.num n => n == 0
  | JSValue.nan => true
  | JSValue.str s => s == ""
  | JSValue.obj _ => false
  | JSValue.context _ _ => false

/-- Decimal digit accumulator for the string case of JS Number(). -/
def digitsToNatAux : List Char → Nat → Option Nat
  | [], acc => some acc
  | c :: cs, acc =>
    if c.isDigit then digitsToNatAux cs (acc * 10 + (c.toNat - 48)) else none

/-- Number() applied to a string: the empty string is 0, a nonnegative
decimal integer literal is its value, anything else is NaN (fractional,
signed and exotic literals are not modelled; no theorem below depends on
them). -/
def strToNumber (s : String) : JSValue :=
  match s.toList with
  | [] => JSValue.num 0
  | l =>
    match digitsToNatAux l 0 with
    | some n => JSValue.num (Int.ofNat n)
    | none => JSValue.nan

/-- JS Number() coercion: objects (without numeric valueOf) coerce to NaN. -/
def toNumber : JSValue → JSValue
  | JSValue.undef => JSValue.nan
  | JSValue.jsNull => JSValue.num 0
  | JSValue.bool b => JSValue.num (if b then 1 else 0)
  | JSValue.num n => JSValue.num n
  | JSValue.nan => JSValue.nan
  | JSValue.str s => strToNumber s
  | JSValue.obj _ => JSValue.nan
  | JSValue.context _ _ => JSValue.nan

/-- JS isNaN on an already-coerced number. -/
def isNaN : JSValue → Bool
  | JSValue.nan => true
  | _ => false

/-- content.split(sep-of-one-space) on the character list: keeps empty
pieces, never returns an empty list. -/
def splitOnSpaceAux : List Char → List (List Char)
  | [] => [[]]
  | c :: cs =>
    match splitOnSpaceAux cs with
    | r :: rs => if c = ' ' then [] :: r :: rs else (c :: r) :: rs
    | [] => [[]]

/-- JS String.prototype.split with a single-space separator. -/
def jsSplitSpace (s : String) : List String :=
  (splitOnSpaceAux s.toList).map (fun l => String.mk l)

/-- JS String.prototype.slice from a character index to the end. -/
def jsSliceFrom (s : String) (n : Nat) : String :=
  String.mk (s.toList.drop n)

/-- JS String.prototype.startsWith. -/
def jsStartsWith (s pre : String) : Bool :=
  List.isPrefixOf pre.toList s.toList

/-- JS String.prototype.toLowerCase (ASCII case map). -/
def jsToLower (s : String) : String :=
  String.mk (s.toList.map Char.toLower)

/-- JS Array.prototype.join with a single-space separator. -/
def jsJoinSpace : List String → String
  | [] => ""
  | [s] => s
  | s :: rest => s ++ " " ++ jsJoinSpace rest

/-- Permission sets are opaque to the dispatcher; it only hands them to the
platform query surface and to error payloads. -/
abbrev PermSet := List Nat

/-- Declared parameter type tags: arg.type in the source is a runtime
constructor reference compared with ===. -/
inductive ArgType where
  | string
  | number
  | message
  | user
  | member
  | custom (tag : Nat)
  deriving Repr, DecidableEq

/-- One declared command parameter (the source's cmd.args entries). -/
structure Arg where
  type : ArgType
  optional : Bool
  rest : Bool

/-- A text message event (discord.js Message), with the permission query
surfaces the dispatcher consults. -/
structure Message where
  authorId : String
  authorBot : Bool
  content : String
  tag : Nat
  clientPermsHas : PermSet → Bool
  memberPermsHas : PermSet → Bool

/-- The message as the JS value handed to converters and handlers. -/
def msgToJS (m : Message) : JSValue := JSValue.obj m.tag

/-- A registered text command (the fields of the source's Command that the
dispatcher reads). checks model the user-supplied predicates, which may
throw; execute models the bound handler, which may throw. -/
structure Command where
  name : String
  aliases : List String
  ownerOnly : Bool
  clientPermissions : PermSet
  checks : List (Message → Except JSValue Bool)
  args : List Arg
  usesCtx : Bool
  execute : List JSValue → Except JSValue Unit

/-- A registered argument converter: convert is invoked by the dispatcher
with the positional argument list [token, message] (CommandHandler.ts line
122: converter.convert.apply(converter.module, [v, msg])); the module
binding is modelled by the closure itself. -/
structure ArgConverter where
  type : ArgType
  convert : JSValue → JSValue → Except JSValue JSValue

/-- A registered slash command (the fields the interaction dispatcher
reads). execute receives the interaction and its options bag. -/
structure SlashCommand where
  name : String
  clientPermissions : PermSet
  ownerOnly : Bool
  execute : JSValue → JSValue → Except JSValue Unit

/-- An interaction event (discord.js Interaction) after the guild
allow-list prelude, with its permission query surfaces. guildAllowed
models the slashCommands.guild filter at the top of the listener. -/
structure Interaction where
  guildAllowed : Bool
  isCommand : Bool
  commandName : String
  userId : String
  clientPermsHas : PermSet → Bool
  memberPermsHas : PermSet → Bool
  tag : Nat
  options : JSValue

/-- The client state the two dispatchers read: commandOptions, owners and
the registry. The prefix is the already-awaited prefix string. -/
structure CommandClient where
  allowSelf : Bool
  allowBots : Bool
  selfId : String
  prefixStr : String
  owners : List String
  commandList : List Command
  argConverterList : List ArgConverter
  slashCommandList : List SlashCommand

/-- Errors emitted on the commandError channel by the text dispatcher.
converterThrew carries the raw thrown value, which the source emits as-is. -/
inductive CommandError where
  | ownerOnlyCommand
  | missingClientPermissions
  | missingUserPermissions
  | checkFailedError
  | missingArgumentError
  | noResultError
  | noConverterError
  | converterThrew (e : JSValue)
  deriving Repr, DecidableEq

/-- Errors emitted on the slashCommandError channel by the interaction
dispatcher gates. -/
inductive SlashError where
  | missingSlashClientPermissions
  | missingSlashUserPermissions
  | ownerOnlySlashCommand
  deriving Repr, DecidableEq

/-- Outcome of one text dispatch. dropped is a bare return: no emission and
no handler call. emitted e is a commandError emission without reaching the
handler. invoked args is a completed handler call with the given argument
list. invokedThenEmitted args e is a handler call that threw e, which the
dispatcher caught and emitted. -/
inductive DispatchResult where
  | dropped
  | emitted (e : CommandError)
  | invoked (args : List JSValue)
  | invokedThenEmitted (args : List JSValue) (e : JSValue)
  deriving Repr, DecidableEq

/-- Outcome of one interaction dispatch, mirroring DispatchResult. -/
inductive SlashResult where
  | dropped
  | emitted (e : SlashError)
  | invoked
  | invokedThenEmitted (e : JSValue)
  deriving Repr, DecidableEq

/-- Outcome of the argument loop: err e aborted dispatch with an emission,
ok parsed fell through (or broke out) with the values converted so far. -/
inductive ArgsOutcome where
  | ok (parsed : List JSValue)
  | err (e : CommandError)

/-- Outcome of the check loop of CommandHandler.ts lines 78-92. -/
inductive CheckOutcome where
  | passed
  | failed
  | threw
  deriving Repr, DecidableEq

/-- The check loop: first predicate returning a falsy value stops the loop
as failed; a predicate that throws stops it as threw (the catch block is a
bare return). Predicate results are modelled as Bool. -/
def runChecks : List (Message → Except JSValue Bool) → Message → CheckOutcome
  | [], _ => CheckOutcome.passed
  | check :: more, msg =>
    match check msg with
    | Except.error _ => CheckOutcome.threw
    | Except.ok false => CheckOutcome.failed
    | Except.ok true => runChecks more msg

/-- JS !v on args.shift(): true for undefined (no token left) and for the
empty string. -/
def jsFalsyTok : Option String → Bool
  | none => true
  | some s => s == ""

/-- The argument loop of CommandHandler.ts lines 93-147, parameter by
parameter, consuming tokens left to right; acc is parsedArgs so far.
Branch order follows the source: rest, required-and-falsy, optional-and-
falsy, plain string, converter lookup. -/
def processArgs (convs : List ArgConverter) (msgVal : JSValue) :
    List Arg → List String → List JSValue → ArgsOutcome
  | [], _, acc => ArgsOutcome.ok acc
  | arg :: moreArgs, tokens, acc =>
    let v : Option String := tokens.head?
    let remTokens := tokens.tail
    if arg.rest then
      ArgsOutcome.ok (acc ++ [JSValue.str (jsJoinSpace (v.getD "" :: remTokens))])
    else if !arg.optional && jsFalsyTok v then
      ArgsOutcome.err CommandError.missingArgumentError
    else if arg.optional && jsFalsyTok v then
      ArgsOutcome.ok acc
    else if arg.type == ArgType.string then
      processArgs convs msgVal moreArgs remTokens (acc ++ [JSValue.str (v.getD "")])
    else
      match convs.find? (fun x => x.type == arg.type) with
      | some conv =>
        match conv.convert (JSValue.str (v.getD "")) msgVal with
        | Except.error e => ArgsOutcome.err (CommandError.converterThrew e)
        | Except.ok r =>
          if falsy r then ArgsOutcome.err CommandError.noResultError
          else processArgs convs msgVal moreArgs remTokens (acc ++ [r])
      | none => ArgsOutcome.err CommandError.noConverterError

/-- The first handler argument (CommandHandler.ts lines 148-153): a fresh
Context wrapping the message and the prefix when the command declares it
wants one, else the raw message. -/
def handlerFirstArg (c : CommandClient) (msg : Message) (cmd : Command) : JSValue :=
  if cmd.usesCtx then JSValue.context msg.tag c.prefixStr else msgToJS msg

/-- Handler invocation (CommandHandler.ts lines 155-159): the call sits in
a try block, and a thrown value is emitted on the error channel rather than
propagated; the total return type records that nothing is re-thrown. -/
def invokeHandler (c : CommandClient) (msg : Message) (cmd : Command)
    (parsed : List JSValue) : DispatchResult :=
  match cmd.execute (handlerFirstArg c msg cmd :: parsed) with
  | Except.ok _ => DispatchResult.invoked (handlerFirstArg c msg cmd :: parsed)
  | Except.error e =>
      DispatchResult.invokedThenEmitted (handlerFirstArg c msg cmd :: parsed) e

/-- The argument stage followed by handler invocation (lines 93-159). -/
def execStage (c : CommandClient) (msg : Message) (cmd : Command)
    (args : List String) : DispatchResult :=
  match processArgs c.argConverterList (msgToJS msg) cmd.args args [] with
  | ArgsOutcome.err e => DispatchResult.emitted e
  | ArgsOutcome.ok parsed => invokeHandler c msg cmd parsed

/-- Text dispatch from a resolved command on (lines 46-159): owner gate,
client permission gate, user permission gate (which the source also feeds
cmd.clientPermissions), checks, then the argument and execution stages. -/
def resolvedDispatch (c : CommandClient) (msg : Message) (cmd : Command)
    (args : List String) : DispatchResult :=
  if cmd.ownerOnly && !(c.owners.contains msg.authorId) then
    DispatchResult.emitted CommandError.ownerOnlyCommand
  else if !(msg.clientPermsHas cmd.clientPermissions) then
    DispatchResult.emitted CommandError.missingClientPermissions
  else if !(msg.memberPermsHas cmd.clientPermissions) then
    DispatchResult.emitted CommandError.missingUserPermissions
  else
    match runChecks cmd.checks msg with
    | CheckOutcome.threw => DispatchResult.dropped
    | CheckOutcome.failed => DispatchResult.emitted CommandError.checkFailedError
    | CheckOutcome.passed => execStage c msg cmd args

/-- The command lookup of CommandHandler.ts lines 40-44: the name is
lowercased on both sides, the aliases are lowercased but the token is
compared to them as written. -/
def findCommand (l : List Command) (command : String) : Option Command :=
  l.find? fun x =>
    jsToLower x.name == jsToLower command
      || (x.aliases.map jsToLower).contains command

/-- The messageCreate listener (CommandHandler.ts lines 23-160): self and
bot filters, prefix test, single-space tokenization, falsy test on the
shifted first token, lookup, then the resolved pipeline. -/
def textDispatch (c : CommandClient) (msg : Message) : DispatchResult :=
  if !c.allowSelf && (msg.authorId == c.selfId) then DispatchResult.dropped
  else if !c.allowBots && msg.authorBot then DispatchResult.dropped
  else if !(jsStartsWith msg.content c.prefixStr) then DispatchResult.dropped
  else
    match jsSplitSpace (jsSliceFrom msg.content c.prefixStr.toList.length) with
    | [] => DispatchResult.dropped
    | command :: args =>
      if command == "" then DispatchResult.dropped
      else
        match findCommand c.commandList command with
        | none => DispatchResult.dropped
        | some cmd => resolvedDispatch c msg cmd args

/-- Slash handler invocation (CommandHandler.ts lines 218-222): the awaited
call sits in a try block and a thrown value is emitted, never re-thrown. -/
def slashInvoke (command : SlashCommand) (i : Interaction) : SlashResult :=
  match command.execute (JSValue.obj i.tag) i.options with
  | Except.ok _ => SlashResult.invoked
  | Except.error e => SlashResult.invokedThenEmitted e

/-- The interactionCreate listener (CommandHandler.ts lines 163-223):
guild allow-list prelude, isCommand filter, exact-name lookup, then the
gates in the order client permission, user permission (which the source
also feeds command.clientPermissions), owner-only, then the handler. -/
def interactionDispatch (c : CommandClient) (i : Interaction) : SlashResult :=
  if !i.guildAllowed then SlashResult.dropped
  else if !i.isCommand then SlashResult.dropped
  else
    match c.slashCommandList.find? (fun x => x.name == i.commandName) with
    | none => SlashResult.dropped
    | some command =>
      if !(i.clientPermsHas command.clientPermissions) then
        SlashResult.emitted SlashError.missingSlashClientPermissions
      else if !(i.memberPermsHas command.clientPermissions) then
        SlashResult.emitted SlashError.missingSlashUserPermissions
      else if command.ownerOnly && !(c.owners.contains i.userId) then
        SlashResult.emitted SlashError.ownerOnlySlashCommand
      else slashInvoke command i

namespace BuiltinCommandConverters

/-- The built-in Number converter body
(BuiltinCommandConverters.ts lines 51-55), with its declared parameter
order: message first, token second; Number() is applied to the second
declared parameter. -/
def number (msg value : JSValue) : JSValue :=
  let n := toNumber value
  if isNaN n then JSValue.undef else n

/-- The built-in String converter body (lines 19-22), declared parameter
order message first, token second; it returns its second parameter. -/
def string (msg arg : JSValue) : JSValue := arg

end BuiltinCommandConverters

/-- The built-in Number converter as registered: a JS call applies the
positional arguments in order to the declared parameters, so the first
positional argument lands in msg and the second in value. The body cannot
throw. -/
def builtinNumberConverter : ArgConverter :=
  { type := ArgType.number
    convert := fun a b => Except.ok (BuiltinCommandConverters.number a b) }

/-! Concrete fixtures used to evaluate the pipeline at specific inputs. -/

/-- A message fixture on which both permission surfaces grant everything. -/
def wMsg : Message :=
  { authorId := "u1", authorBot := false, content := "", tag := 0,
    clientPermsHas := fun _ => true, memberPermsHas := fun _ => true }

/-- Message fixture with a given content and permissive surfaces. -/
def mkMsg (content : String) : Message :=
  { authorId := "u1", authorBot := false, content := content, tag := 0,
    clientPermsHas := fun _ => true, memberPermsHas := fun _ => true }

/-- Required parameter of type Number. -/
def numArg : Arg := { type := ArgType.number, optional := false, rest := false }

/-- Required parameter of plain string type. -/
def strReqArg : Arg := { type := ArgType.string, optional := false, rest := false }

/-- Optional parameter of plain string type. -/
def strOptArg : Arg := { type := ArgType.string, optional := true, rest := false }

/-- Rest parameter. -/
def restArg : Arg := { type := ArgType.string, optional := false, rest := true }

/-- A converter for Number that returns the number 0 for every token: a
falsy but semantically meaningful result. -/
def zeroConverter : ArgConverter :=
  { type := ArgType.number, convert := fun _ _ => Except.ok (JSValue.num 0) }

/-- The ping command with alias p. -/
def pingCommand : Command :=
  { name := "ping", aliases := ["p"], ownerOnly := false, clientPermissions := [],
    checks := [], args := [], usesCtx := false, execute := fun _ => Except.ok () }

/-- add(a: number, b: number). -/
def addCommand : Command :=
  { name := "add", aliases := [], ownerOnly := false, clientPermissions := [],
    checks := [], args := [numArg, numArg], usesCtx := false,
    execute := fun _ => Except.ok () }

/-- A command whose parameter list is one required then one optional
string parameter. -/
def reqOptCommand : Command :=
  { name := "two", aliases := [], ownerOnly := false, clientPermissions := [],
    checks := [], args := [strReqArg, strOptArg], usesCtx := false,
    execute := fun _ => Except.ok () }

/-- A command whose only parameter is optional. -/
def optOnlyCommand : Command :=
  { name := "one", aliases := [], ownerOnly := false, clientPermissions := [],
    checks := [], args := [strOptArg], usesCtx := false,
    execute := fun _ => Except.ok () }

/-- say(msg: rest). -/
def sayCommand : Command :=
  { name := "say", aliases := [], ownerOnly := false, clientPermissions := [],
    checks := [], args := [restArg], usesCtx := false,
    execute := fun _ => Except.ok () }

/-- nums(n: number). -/
def numsCommand : Command :=
  { name := "nums", aliases := [], ownerOnly := false, clientPermissions := [],
    checks := [], args := [numArg], usesCtx := false,
    execute := fun _ => Except.ok () }

/-- A command whose handler always throws. -/
def throwCommand : Command :=
  { name := "boom", aliases := [], ownerOnly := false, clientPermissions := [],
    checks := [], args := [], usesCtx := false,
    execute := fun _ => Except.error (JSValue.str "handler threw") }

/-- A command whose single check throws. -/
def checkThrowCommand : Command :=
  { name := "guarded", aliases := [], ownerOnly := false, clientPermissions := [],
    checks := [fun _ => Except.error (JSValue.str "check threw")], args := [],
    usesCtx := false, execute := fun _ => Except.ok () }

/-- Client with an empty registry, permissive filters, no owners. -/
def emptyClient : CommandClient :=
  { allowSelf := true, allowBots := true, selfId := "bot", prefixStr := "!",
    owners := [], commandList := [], argConverterList := [],
    slashCommandList := [] }

/-- Client whose registry holds the ping command only. -/
def pingClient : CommandClient :=
  { allowSelf := true, allowBots := true, selfId := "bot", prefixStr := "!",
    owners := [], commandList := [pingCommand], argConverterList := [],
    slashCommandList := [] }

/-- Client whose converter registry holds the zero-returning converter. -/
def zeroClient : CommandClient :=
  { allowSelf := true, allowBots := true, selfId := "bot", prefixStr := "!",
    owners := [], commandList := [addCommand], argConverterList := [zeroConverter],
    slashCommandList := [] }

/-- Client whose converter registry holds the built-in Number converter. -/
def numClient : CommandClient :=
  { allowSelf := true, allowBots := true, selfId := "bot", prefixStr := "!",
    owners := [], commandList := [numsCommand],
    argConverterList := [builtinNumberConverter], slashCommandList := [] }

/-- An owner-only slash command requiring permission 1. -/
def slashCmd : SlashCommand :=
  { name := "s", clientPermissions := [1], ownerOnly := true,
    execute := fun _ _ => Except.ok () }

/-- A slash command whose handler always throws. -/
def throwSlashCmd : SlashCommand :=
  { name := "t", clientPermissions := [], ownerOnly := false,
    execute := fun _ _ => Except.error (JSValue.str "slash handler threw") }

/-- Client whose slash registry holds the two slash fixtures; no owners. -/
def slashClient : CommandClient :=
  { allowSelf := true, allowBots := true, selfId := "bot", prefixStr := "!",
    owners := [], commandList := [], argConverterList := [],
    slashCommandList := [slashCmd, throwSlashCmd] }

/-- Interaction for the slash command s by a non-owner for whom both
permission surfaces deny everything. -/
def deniedInteraction : Interaction :=
  { guildAllowed := true, isCommand := true, commandName := "s", userId := "u1",
    clientPermsHas := fun _ => false, memberPermsHas := fun _ => false,
    tag := 1, options := JSValue.obj 2 }

/-- Interaction for the slash command t with permissive surfaces. -/
def okInteraction : Interaction :=
  { guildAllowed := true, isCommand := true, commandName := "t", userId := "u1",
    clientPermsHas := fun _ => true, memberPermsHas := fun _ => true,
    tag := 1, options := JSValue.obj 2 }

/-! Shared lemmas about the stages of the pipeline. -/

/-- When the argument loop aborts with an error, the execution stage is
that emission and the handler is never reached. -/
theorem execStage_of_err (c : CommandClient) (msg : Message) (cmd : Command)
    (args : List String) (e : CommandError)
    (h : processArgs c.argConverterList (msgToJS msg) cmd.args args []
       = ArgsOutcome.err e) :
    execStage c msg cmd args = DispatchResult.emitted e := by
  unfold execStage
  rw [h]

/-- When the argument loop completes with parsed values, the execution
stage is the handler invocation on those values. -/
theorem execStage_of_ok (c : CommandClient) (msg : Message) (cmd : Command)
    (args : List String) (parsed : List JSValue)
    (h : processArgs c.argConverterList (msgToJS msg) cmd.args args []
       = ArgsOutcome.ok parsed) :
    execStage c msg cmd args = invokeHandler c msg cmd parsed := by
  unfold execStage
  rw [h]

/-- One step of the argument loop at a non-rest, non-string parameter with
a nonempty token, whose registered converter returns a falsy value: the
loop aborts with the no-result error. -/
theorem processArgs_falsy_result (convs : List ArgConverter) (msgVal : JSValue)
    (arg : Arg) (moreArgs : List Arg) (toks : List String) (acc : List JSValue)
    (s : String) (conv : ArgConverter) (r : JSValue)
    (hrest : arg.rest = false)
    (hstr : arg.type ≠ ArgType.string)
    (htok : toks.head? = some s)
    (hs : s ≠ "")
    (hfind : convs.find? (fun x => x.type == arg.type) = some conv)
    (hconv : conv.convert (JSValue.str s) msgVal = Except.ok r)
    (hfalsy : falsy r = true) :
    processArgs convs msgVal (arg :: moreArgs) toks acc
      = ArgsOutcome.err CommandError.noResultError := by
  have hsB : (s == "") = false := by simpa using hs
  have hstrB : (arg.type == ArgType.string) = false := by simpa using hstr
  cases toks with
  | nil => simp at htok
  | cons t ts =>
    have ht : t = s := by simpa using htok
    subst ht
    simp [processArgs, hrest, jsFalsyTok, hsB, hstrB, hfind, hconv, hfalsy]

/-! Claim theorems. -/

/-- Claim C1: for every text dispatch of a parameter whose type is not the
plain string type and for which a converter is registered, if the
converter returns any falsy value (the number 0 and the empty string
included), the dispatcher emits the conversion-failure error (Argument
converter returned no result) for that event; the stage result is an
emission and never a handler invocation. The hypothesis hreach states
that the loop reaches this parameter with the given remaining tokens and
values accumulated so far. -/
theorem c1_falsy_converter_result_emits_failure
    (c : CommandClient) (msg : Message) (cmd : Command) (args : List String)
    (arg : Arg) (moreArgs : List Arg) (toks : List String) (acc : List JSValue)
    (s : String) (conv : ArgConverter) (r : JSValue)
    (hreach : processArgs c.argConverterList (msgToJS msg) cmd.args args []
            = processArgs c.argConverterList (msgToJS msg) (arg :: moreArgs) toks acc)
    (hrest : arg.rest = false)
    (hstr : arg.type ≠ ArgType.string)
    (htok : toks.head? = some s)
    (hs : s ≠ "")
    (hfind : c.argConverterList.find? (fun x => x.type == arg.type) = some conv)
    (hconv : conv.convert (JSValue.str s) (msgToJS msg) = Except.ok r)
    (hfalsy : falsy r = true) :
    execStage c msg cmd args = DispatchResult.emitted CommandError.noResultError := by
  apply execStage_of_err
  rw [hreach]
  exact processArgs_falsy_result _ _ _ _ _ _ _ _ _ hrest hstr htok hs hfind hconv hfalsy

/-- Witness for C1: add(a: number, b: number) dispatched on tokens 0 and 3
through a converter returning the legitimate number 0 emits the no-result
error instead of invoking the handler. -/
theorem c1_witness :
    execStage zeroClient wMsg addCommand ["0", "3"]
      = DispatchResult.emitted CommandError.noResultError :=
  c1_falsy_converter_result_emits_failure zeroClient wMsg addCommand ["0", "3"]
    numArg [numArg] ["0", "3"] [] "0" zeroConverter (JSValue.num 0)
    rfl rfl (by decide) rfl (by decide) rfl rfl rfl

/-- Claim C2: for every interaction dispatch of a resolved command, the
gates run client permission first, then user permission, then owner-only,
so when both permission surfaces deny, the emitted error is the missing
client permissions one, never the user one and never owner-only, whatever
the ownership status of the actor. -/
theorem c2_interaction_gate_client_first
    (c : CommandClient) (i : Interaction) (command : SlashCommand)
    (hguild : i.guildAllowed = true)
    (hic : i.isCommand = true)
    (hfind : c.slashCommandList.find? (fun x => x.name == i.commandName)
           = some command)
    (hclient : i.clientPermsHas command.clientPermissions = false)
    (huser : i.memberPermsHas command.clientPermissions = false) :
    interactionDispatch c i
      = SlashResult.emitted SlashError.missingSlashClientPermissions := by
  simp [interactionDispatch, hguild, hic, hfind, hclient]

/-- Witness for C2: an owner-only slash command, an invoking actor who is
not an owner and permission surfaces denying both the bot and the user
still emit the missing client permissions error first. -/
theorem c2_witness :
    interactionDispatch slashClient deniedInteraction
      = SlashResult.emitted SlashError.missingSlashClientPermissions :=
  c2_interaction_gate_client_first slashClient deniedInteraction slashCmd
    rfl rfl rfl rfl rfl

/-- Claim C3: for every text dispatch whose gates pass and in which the
check loop ends because a predicate threw, dispatch aborts with no error
channel emission of any kind and no handler invocation (the result is
dropped), whereas a predicate returning false emits the check-failed
error. -/
theorem c3_check_exception_aborts_silently
    (c : CommandClient) (msg : Message) (cmd : Command) (args : List String)
    (howner : (cmd.ownerOnly && !(c.owners.contains msg.authorId)) = false)
    (hclient : msg.clientPermsHas cmd.clientPermissions = true)
    (huser : msg.memberPermsHas cmd.clientPermissions = true) :
    (runChecks cmd.checks msg = CheckOutcome.threw →
        resolvedDispatch c msg cmd args = DispatchResult.dropped)
    ∧ (runChecks cmd.checks msg = CheckOutcome.failed →
        resolvedDispatch c msg cmd args
          = DispatchResult.emitted CommandError.checkFailedError) := by
  have howner2 : cmd.ownerOnly = true → msg.authorId ∈ c.owners := by
    intro hb
    simpa [hb] using howner
  constructor <;> intro h <;>
    simp [resolvedDispatch, hclient, huser, h] <;> exact howner2

/-- Witness for C3: a command whose only check throws is dropped silently
when dispatched. -/
theorem c3_witness :
    resolvedDispatch emptyClient wMsg checkThrowCommand [] = DispatchResult.dropped :=
  (c3_check_exception_aborts_silently emptyClient wMsg checkThrowCommand []
    rfl rfl rfl).1 rfl

/-- Counterexample to C4 as stated: the token P is contained
case-insensitively in the alias set of ping (whose alias is p), so the
claim predicts that it resolves to ping; the code lowercases the aliases
but compares the token as written, so lookup finds nothing and the
message !P is dropped silently. -/
theorem c4_counterexample :
    findCommand [pingCommand] "P" = none
    ∧ textDispatch pingClient (mkMsg "!P") = DispatchResult.dropped :=
  ⟨rfl, rfl⟩

/-- Claim C4 as amended: lookup resolves a token to a command only when
the name matches case-insensitively or the token, exactly as written, is
among the lowercased aliases; a token matching neither for any command
resolves to nothing; with prefix-bang and command ping aliased p, the
tokens p and PING resolve to ping, pong resolves to nothing and its
dispatch is a silent drop. -/
theorem c4_lookup_characterization :
    (∀ (l : List Command) (token : String) (cmd : Command),
        findCommand l token = some cmd →
          jsToLower cmd.name = jsToLower token
            ∨ token ∈ cmd.aliases.map jsToLower)
    ∧ (∀ (l : List Command) (token : String),
        (∀ cmd ∈ l,
            jsToLower cmd.name ≠ jsToLower token
              ∧ token ∉ cmd.aliases.map jsToLower) →
          findCommand l token = none)
    ∧ findCommand [pingCommand] "p" = some pingCommand
    ∧ findCommand [pingCommand] "PING" = some pingCommand
    ∧ findCommand [pingCommand] "pong" = none
    ∧ textDispatch pingClient (mkMsg "!pong") = DispatchResult.dropped := by
  refine ⟨?_, ?_, rfl, rfl, rfl, rfl⟩
  · intro l token cmd h
    have hp := List.find?_some h
    simpa [Bool.or_eq_true, List.contains, jsToLower] using hp
  · intro l token hall
    apply List.find?_eq_none.mpr
    intro x hx
    have h2 := hall x hx
    simp [Bool.or_eq_true, List.contains, h2.1, h2.2]

/-- Claim C5: a rest parameter consumes the current token and every
remaining token, joined by single spaces into one string value appended to
the parsed values, and no later parameter is processed (the parameters
after it do not occur in the result). -/
theorem c5_rest_parameter_joins_remaining
    (convs : List ArgConverter) (msgVal : JSValue) (arg : Arg)
    (moreArgs : List Arg) (t : String) (ts : List String) (acc : List JSValue)
    (hrest : arg.rest = true) :
    processArgs convs msgVal (arg :: moreArgs) (t :: ts) acc
      = ArgsOutcome.ok (acc ++ [JSValue.str (jsJoinSpace (t :: ts))]) := by
  simp [processArgs, hrest]

/-- Witness for C5: say(msg: rest) applied to the tokens hello and world
yields the single value formed by joining them with one space. -/
theorem c5_witness :
    processArgs [] (msgToJS wMsg) sayCommand.args ["hello", "world"] []
      = ArgsOutcome.ok [JSValue.str "hello world"] :=
  c5_rest_parameter_joins_remaining [] (msgToJS wMsg) restArg [] "hello" ["world"] [] rfl

/-- Claim C6: when the argument loop reaches a non-optional, non-rest
parameter with no remaining token, it aborts with the missing-argument
error emission and the handler is not invoked. -/
theorem c6_missing_required_argument
    (c : CommandClient) (msg : Message) (cmd : Command) (args : List String)
    (arg : Arg) (moreArgs : List Arg) (acc : List JSValue)
    (hreach : processArgs c.argConverterList (msgToJS msg) cmd.args args []
            = processArgs c.argConverterList (msgToJS msg) (arg :: moreArgs) [] acc)
    (hrest : arg.rest = false)
    (hopt : arg.optional = false) :
    execStage c msg cmd args
      = DispatchResult.emitted CommandError.missingArgumentError := by
  apply execStage_of_err
  rw [hreach]
  simp [processArgs, hrest, hopt, jsFalsyTok]

/-- Witness for C6: a command declared with one required and one optional
parameter, invoked with zero trailing tokens, fails at the first
parameter with the missing-argument emission. -/
theorem c6_witness :
    execStage emptyClient wMsg reqOptCommand []
      = DispatchResult.emitted CommandError.missingArgumentError :=
  c6_missing_required_argument emptyClient wMsg reqOptCommand []
    strReqArg [strOptArg] [] rfl rfl rfl

/-- Claim C7: when the argument loop reaches an optional, non-rest
parameter with no remaining token, it stops with no error, leaving the
trailing parameters unset, and the handler is still invoked with the
values converted so far. -/
theorem c7_optional_missing_stops_and_invokes
    (c : CommandClient) (msg : Message) (cmd : Command) (args : List String)
    (arg : Arg) (moreArgs : List Arg) (acc : List JSValue)
    (hreach : processArgs c.argConverterList (msgToJS msg) cmd.args args []
            = processArgs c.argConverterList (msgToJS msg) (arg :: moreArgs) [] acc)
    (hrest : arg.rest = false)
    (hopt : arg.optional = true) :
    processArgs c.argConverterList (msgToJS msg) cmd.args args [] = ArgsOutcome.ok acc
    ∧ execStage c msg cmd args = invokeHandler c msg cmd acc := by
  have hstop : processArgs c.argConverterList (msgToJS msg) (arg :: moreArgs) [] acc
      = ArgsOutcome.ok acc := by
    simp [processArgs, hrest, hopt, jsFalsyTok]
  exact ⟨hreach.trans hstop, execStage_of_ok _ _ _ _ _ (hreach.trans hstop)⟩

/-- Witness for C7: a command with one optional parameter invoked with
zero tokens succeeds with the parameter unset and the handler invoked. -/
theorem c7_witness :
    processArgs emptyClient.argConverterList (msgToJS wMsg) optOnlyCommand.args [] []
        = ArgsOutcome.ok []
    ∧ execStage emptyClient wMsg optOnlyCommand []
        = invokeHandler emptyClient wMsg optOnlyCommand [] :=
  c7_optional_missing_stops_and_invokes emptyClient wMsg optOnlyCommand []
    strOptArg [] [] rfl rfl rfl

/-- Claim C8: on both dispatch paths, a value thrown by the handler is
caught and emitted on the error channel as an execution error; both
invocation stages are total functions into the result type, so nothing is
re-thrown to the platform event loop. -/
theorem c8_handler_exception_caught_and_emitted :
    (∀ (c : CommandClient) (msg : Message) (cmd : Command)
        (parsed : List JSValue) (e : JSValue),
        cmd.execute (handlerFirstArg c msg cmd :: parsed) = Except.error e →
          invokeHandler c msg cmd parsed
            = DispatchResult.invokedThenEmitted (handlerFirstArg c msg cmd :: parsed) e)
    ∧ (∀ (command : SlashCommand) (i : Interaction) (e : JSValue),
        command.execute (JSValue.obj i.tag) i.options = Except.error e →
          slashInvoke command i = SlashResult.invokedThenEmitted e) := by
  constructor
  · intro c msg cmd parsed e h
    unfold invokeHandler
    rw [h]
  · intro command i e h
    unfold slashInvoke
    rw [h]

/-- Witness for C8: a throwing text handler and a throwing slash handler
both end in a caught-and-emitted result. -/
theorem c8_witness :
    invokeHandler emptyClient wMsg throwCommand []
        = DispatchResult.invokedThenEmitted [msgToJS wMsg] (JSValue.str "handler threw")
    ∧ slashInvoke throwSlashCmd okInteraction
        = SlashResult.invokedThenEmitted (JSValue.str "slash handler threw") :=
  ⟨c8_handler_exception_caught_and_emitted.1 emptyClient wMsg throwCommand []
      (JSValue.str "handler threw") rfl,
   c8_handler_exception_caught_and_emitted.2 throwSlashCmd okInteraction
      (JSValue.str "slash handler threw") rfl⟩

/-- Claim C9: the argument loop invokes converters with the positional
list token-then-message while the built-in converters declare their
parameters message-then-token, so the built-in Number converter applies
the numeric parse to the message object: as the pipeline calls it, it
returns undefined for every token (never the numeric value of the token),
and a Number-typed parameter dispatched through it always ends in the
conversion-failure emission. -/
theorem c9_builtin_number_converter_parses_message
    (c : CommandClient) (msg : Message) (cmd : Command) (args : List String)
    (arg : Arg) (moreArgs : List Arg) (toks : List String) (acc : List JSValue)
    (s : String)
    (hreach : processArgs c.argConverterList (msgToJS msg) cmd.args args []
            = processArgs c.argConverterList (msgToJS msg) (arg :: moreArgs) toks acc)
    (hrest : arg.rest = false)
    (hnum : arg.type = ArgType.number)
    (htok : toks.head? = some s)
    (hs : s ≠ "")
    (hfind : c.argConverterList.find? (fun x => x.type == arg.type)
           = some builtinNumberConverter) :
    builtinNumberConverter.convert (JSValue.str s) (msgToJS msg)
        = Except.ok JSValue.undef
    ∧ execStage c msg cmd args = DispatchResult.emitted CommandError.noResultError := by
  constructor
  · rfl
  · apply execStage_of_err
    rw [hreach]
    exact processArgs_falsy_result _ _ _ _ _ _ _ _ _ hrest
      (by rw [hnum]; decide) htok hs hfind rfl rfl

/-- Witness for C9: the numeric token 7 dispatched through the built-in
Number converter converts to undefined and the dispatch emits the
no-result error. -/
theorem c9_witness :
    builtinNumberConverter.convert (JSValue.str "7") (msgToJS wMsg)
        = Except.ok JSValue.undef
    ∧ execStage numClient wMsg numsCommand ["7"]
        = DispatchResult.emitted CommandError.noResultError :=
  c9_builtin_number_converter_parses_message numClient wMsg numsCommand ["7"]
    numArg [] ["7"] [] "7" rfl rfl rfl rfl (by decide) rfl

/-- Claim C10: a consumed token that is the empty string (which
single-space tokenization produces from consecutive spaces, as the last
conjunct shows on a concrete content) is treated like an absent token,
even when further nonempty tokens remain unconsumed: a non-optional
non-rest parameter bound to it triggers the missing-argument emission and
an optional one stops processing with the handler invoked on the values
so far. -/
theorem c10_empty_token_treated_as_absent
    (c : CommandClient) (msg : Message) (cmd : Command) (args : List String)
    (arg : Arg) (moreArgs : List Arg) (ts : List String) (acc : List JSValue)
    (hreach : processArgs c.argConverterList (msgToJS msg) cmd.args args []
            = processArgs c.argConverterList (msgToJS msg) (arg :: moreArgs) ("" :: ts) acc)
    (hrest : arg.rest = false) :
    (arg.optional = false →
        execStage c msg cmd args
          = DispatchResult.emitted CommandError.missingArgumentError)
    ∧ (arg.optional = true →
        execStage c msg cmd args = invokeHandler c msg cmd acc)
    ∧ jsSplitSpace "say a  b" = ["say", "a", "", "b"] := by
  refine ⟨fun hopt => ?_, fun hopt => ?_, rfl⟩
  · apply execStage_of_err
    rw [hreach]
    simp [processArgs, hrest, hopt, jsFalsyTok]
  · apply execStage_of_ok
    rw [hreach]
    simp [processArgs, hrest, hopt, jsFalsyTok]

/-- Witness for C10: a required parameter bound to an empty token fails
with the missing-argument emission although the nonempty token x is still
unconsumed. -/
theorem c10_witness :
    execStage emptyClient wMsg reqOptCommand ["", "x"]
      = DispatchResult.emitted CommandError.missingArgumentError :=
  (c10_empty_token_treated_as_absent emptyClient wMsg reqOptCommand ["", "x"]
    strReqArg [strOptArg] ["x"] [] rfl rfl).1 rfl

end CommandTS
